import Mathlib

/-
Verification of Firestore/src/cpp/util/random.cc (namespace firestore).

The file defines two free functions over the platform entropy source:

  double RandomDouble() {
    return static_cast<double>(arc4random()) / kArc4RandomMax;
  }

  std::string CreateAutoId() {
    std::string auto_id;
    auto_id.reserve(kAutoIdLength);
    for (int i = 0; i < kAutoIdLength; i++) {
      uint32_t rand_index =
          arc4random_uniform(static_cast<uint32_t>(sizeof(kAutoIdAlphabet)));
      auto_id.append(1, kAutoIdAlphabet[rand_index]);
    }
    return auto_id;
  }

with constants

  static const double kArc4RandomMax = 0x100000000;
  static const int kAutoIdLength = 20;
  static const char* const kAutoIdAlphabet =
      "ABCDEFGHIJKLMNOPQRSTUVWXYZabcdefghijklmnopqrstuvwxyz0123456789";

The entropy source (arc4random / arc4random_uniform from libc) is modelled
as an explicit stream of natural numbers, one per draw; arc4random reduces
the draw mod 2^32 (its contract: a uniformly random 32-bit value) and
arc4random_uniform reduces it mod the upper bound (its contract: a
uniformly random value strictly below the bound).  Both functions of the
source are therefore deterministic functions of the stream.

RandomDouble performs the uint32 to double conversion (exact: 32 < 53
significand bits) and a division by the power of two 2^32 (exact in
IEEE-754 binary64, no overflow or underflow in [0,1]), so the double
computation is modelled exactly over the rationals.

kAutoIdAlphabet has C type const char* const, a pointer; sizeof applied to
it yields the pointer size, which is 8 on an LP64 platform, not the 63
bytes of the string literal it points to.  The model fixes the pointer
size at 8, matching the 64-bit platforms the library targets.
-/

namespace firestore

/-- Entropy stream: the value produced by the k-th call into the platform
random source. -/
abbrev Entropy := Nat → Nat

/-- arc4random(): a uniformly random 32-bit unsigned value; the k-th draw of
the stream reduced mod 2^32. -/
def arc4random (e : Entropy) (k : Nat) : Nat := e k % 2 ^ 32

/-- arc4random_uniform(ub): a uniformly random value strictly below ub; the
k-th draw of the stream reduced mod ub. -/
def arc4random_uniform (ub : Nat) (e : Entropy) (k : Nat) : Nat := e k % ub

/-- kArc4RandomMax = 0x100000000 = 2^32, as an exact rational. -/
def kArc4RandomMax : ℚ := 0x100000000

/-- kAutoIdLength = 20. -/
def kAutoIdLength : Nat := 20

/-- kAutoIdAlphabet: the 62-character string literal the pointer constant
points to. -/
def kAutoIdAlphabet : String :=
  "ABCDEFGHIJKLMNOPQRSTUVWXYZabcdefghijklmnopqrstuvwxyz0123456789"

/-- The bytes the alphabet string literal occupies in memory: the 62
characters followed by the terminating NUL byte. -/
def kAutoIdAlphabetBuf : List Char := kAutoIdAlphabet.data ++ [Char.ofNat 0]

/-- sizeof(kAutoIdAlphabet): kAutoIdAlphabet has type const char* const, so
sizeof yields the size of a pointer, 8 on an LP64 platform. -/
def sizeofKAutoIdAlphabet : Nat := 8

/-- RandomDouble(): static_cast<double>(arc4random()) / kArc4RandomMax,
computed exactly over the rationals (both steps are exact in binary64). -/
def RandomDouble (e : Entropy) : ℚ := (arc4random e 0 : ℚ) / kArc4RandomMax

/-- The random index drawn on loop iteration i of CreateAutoId:
arc4random_uniform(static_cast<uint32_t>(sizeof(kAutoIdAlphabet))). -/
def autoIdIndex (e : Entropy) (i : Nat) : Nat :=
  arc4random_uniform sizeofKAutoIdAlphabet e i

/-- The characters appended by the CreateAutoId loop, starting at loop
counter i with k iterations remaining; each iteration reads
kAutoIdAlphabet[rand_index] from the bytes of the literal. -/
def autoIdChars (e : Entropy) : Nat → Nat → List Char
  | _, 0 => []
  | i, Nat.succ k =>
      kAutoIdAlphabetBuf.getD (autoIdIndex e i) (Char.ofNat 0) ::
        autoIdChars e (i + 1) k

/-- CreateAutoId(): the string built by the loop, i = 0 .. kAutoIdLength-1. -/
def CreateAutoId (e : Entropy) : String :=
  String.mk (autoIdChars e 0 kAutoIdLength)

/-- Every index drawn by the loop is strictly below 8. -/
lemma autoIdIndex_lt_eight (e : Entropy) (i : Nat) : autoIdIndex e i < 8 := by
  unfold autoIdIndex arc4random_uniform sizeofKAutoIdAlphabet
  exact Nat.mod_lt _ (by norm_num)

/-- Reading the literal bytes at an index below 8 yields one of the first
eight alphabet characters. -/
lemma getD_buf_mem_first_eight (n : Nat) (h : n < 8) :
    kAutoIdAlphabetBuf.getD n (Char.ofNat 0) ∈ ("ABCDEFGH" : String).data := by
  interval_cases n <;> decide

/-- The first eight alphabet characters are alphabet characters. -/
lemma first_eight_sub_alphabet :
    ∀ c ∈ ("ABCDEFGH" : String).data, c ∈ kAutoIdAlphabet.data := by decide

/-- The loop produces exactly as many characters as it has iterations
remaining. -/
lemma autoIdChars_length (e : Entropy) :
    ∀ k i, (autoIdChars e i k).length = k := by
  intro k
  induction k with
  | zero => intro i; rfl
  | succ k ih => intro i; simp [autoIdChars, ih]

/-- Every character the loop produces is a byte of the literal read at one
of the drawn indices. -/
lemma mem_autoIdChars (e : Entropy) :
    ∀ k i c, c ∈ autoIdChars e i k →
      ∃ j, c = kAutoIdAlphabetBuf.getD (autoIdIndex e j) (Char.ofNat 0) := by
  intro k
  induction k with
  | zero => intro i c hc; cases hc
  | succ k ih =>
      intro i c hc
      rcases List.mem_cons.mp hc with h | h
      · exact ⟨i, h⟩
      · exact ih (i + 1) c h

/-- Two entropy streams that induce the same drawn indices on iterations
i .. i+k-1 make the loop produce the same characters. -/
lemma autoIdChars_congr (e f : Entropy) :
    ∀ k i, (∀ j, i ≤ j → j < i + k → autoIdIndex e j = autoIdIndex f j) →
      autoIdChars e i k = autoIdChars f i k := by
  intro k
  induction k with
  | zero => intro i _; rfl
  | succ k ih =>
      intro i h
      unfold autoIdChars
      rw [h i (Nat.le_refl i) (by omega)]
      rw [ih (i + 1) (fun j hj hj2 => h j (by omega) (by omega))]

/-- Helper: arc4random always yields a value below 2^32. -/
lemma arc4random_lt (e : Entropy) (k : Nat) : arc4random e k < 2 ^ 32 := by
  unfold arc4random
  exact Nat.mod_lt _ (by norm_num)

/-- C1: the claim states that each per-character index is drawn uniformly
from [0, 62) and indexes the full 62-character alphabet.  The code instead
passes sizeof(kAutoIdAlphabet) = 8 (a pointer size) to arc4random_uniform,
so on the stream that offers the draws 0, 1, 2, ... the output cycles
through the first eight characters only, "ABCDEFGHABCDEFGHABCD", rather
than reaching all 62 characters; the upper bound 8 differs from the
62-character alphabet length. -/
theorem C1_sizeof_bug_eval :
    CreateAutoId (fun k => k) = "ABCDEFGHABCDEFGHABCD" ∧
      sizeofKAutoIdAlphabet ≠ kAutoIdAlphabet.length := by
  constructor
  · decide
  · decide

/-- C2: for every entropy stream, each per-character index drawn by
CreateAutoId lies in [0, 8) (sizeof(const char*) = 8 on LP64), and every
character of the returned string is one of the first eight alphabet
characters, A through H. -/
theorem C2_index_below_eight (e : Entropy) (i : Nat) (c : Char)
    (hc : c ∈ (CreateAutoId e).data) :
    autoIdIndex e i < 8 ∧ c ∈ ("ABCDEFGH" : String).data := by
  refine ⟨autoIdIndex_lt_eight e i, ?_⟩
  obtain ⟨j, hj⟩ := mem_autoIdChars e kAutoIdLength 0 c hc
  rw [hj]
  exact getD_buf_mem_first_eight _ (autoIdIndex_lt_eight e j)

/-- Witness for C2 at the constant-zero stream: the drawn index 0 is below
8 and the character 'A' produced there is among A through H. -/
theorem C2_index_below_eight_witness :
    autoIdIndex (fun _ => 0) 0 < 8 ∧ 'A' ∈ ("ABCDEFGH" : String).data :=
  C2_index_below_eight (fun _ => 0) 0 'A' (by decide)

/-- C3: for every entropy stream, every character of the string returned by
CreateAutoId is a member of the 62-character alphabet A-Z, a-z, 0-9. -/
theorem C3_alphabet_membership (e : Entropy) (c : Char)
    (hc : c ∈ (CreateAutoId e).data) : c ∈ kAutoIdAlphabet.data := by
  obtain ⟨j, hj⟩ := mem_autoIdChars e kAutoIdLength 0 c hc
  rw [hj]
  exact first_eight_sub_alphabet _
    (getD_buf_mem_first_eight _ (autoIdIndex_lt_eight e j))

/-- Witness for C3 at the constant-zero stream: the character 'A' it
produces belongs to the alphabet. -/
theorem C3_alphabet_membership_witness : 'A' ∈ kAutoIdAlphabet.data :=
  C3_alphabet_membership (fun _ => 0) 'A' (by decide)

/-- C4: for every entropy stream, the string returned by CreateAutoId has
length exactly 20 = kAutoIdLength. -/
theorem C4_length_twenty (e : Entropy) :
    (CreateAutoId e).length = 20 ∧ (CreateAutoId e).length = kAutoIdLength := by
  have h : (CreateAutoId e).length = kAutoIdLength := by
    show (autoIdChars e 0 kAutoIdLength).length = kAutoIdLength
    exact autoIdChars_length e kAutoIdLength 0
  exact ⟨h, h⟩

/-- C5: for every entropy stream, the value returned by RandomDouble
satisfies 0 ≤ r < 1: never negative and never exactly 1. -/
theorem C5_unit_interval (e : Entropy) :
    0 ≤ RandomDouble e ∧ RandomDouble e < 1 := by
  constructor
  · exact div_nonneg (Nat.cast_nonneg _) (by norm_num [kArc4RandomMax])
  · rw [RandomDouble, div_lt_one (by norm_num [kArc4RandomMax])]
    have h := arc4random_lt e 0
    have : (arc4random e 0 : ℚ) < ((2 ^ 32 : Nat) : ℚ) := by exact_mod_cast h
    calc (arc4random e 0 : ℚ) < ((2 ^ 32 : Nat) : ℚ) := this
      _ = kArc4RandomMax := by norm_num [kArc4RandomMax]

/-- C6: RandomDouble returns exactly n / 2^32 where n is the 32-bit value
drawn from the entropy source; the draw 0 maps to exactly 0, and the draw
2^32 - 1 maps to (2^32 - 1) / 2^32, strictly below 1. -/
theorem C6_exact_quotient (e : Entropy) (n : Nat) (he : e 0 = n)
    (hn : n < 2 ^ 32) :
    RandomDouble e = (n : ℚ) / 2 ^ 32 ∧ RandomDouble e < 1 ∧
      RandomDouble (fun _ => 0) = 0 ∧
      RandomDouble (fun _ => 2 ^ 32 - 1) = (2 ^ 32 - 1 : ℚ) / 2 ^ 32 ∧
      RandomDouble (fun _ => 2 ^ 32 - 1) < 1 := by
  refine ⟨?_, (C5_unit_interval e).2, ?_, ?_, ?_⟩
  · unfold RandomDouble arc4random kArc4RandomMax
    rw [he, Nat.mod_eq_of_lt hn]
    norm_num
  · unfold RandomDouble arc4random kArc4RandomMax
    norm_num
  · unfold RandomDouble arc4random kArc4RandomMax
    norm_num
  · unfold RandomDouble arc4random kArc4RandomMax
    norm_num

/-- Witness for C6 at the constant stream drawing 5: the hypotheses hold
at n = 5 and the quotient is exactly 5 / 2^32. -/
theorem C6_exact_quotient_witness :
    RandomDouble (fun _ => 5) = (5 : ℚ) / 2 ^ 32 ∧
      RandomDouble (fun _ => 5) < 1 ∧
      RandomDouble (fun _ => 0) = 0 ∧
      RandomDouble (fun _ => 2 ^ 32 - 1) = (2 ^ 32 - 1 : ℚ) / 2 ^ 32 ∧
      RandomDouble (fun _ => 2 ^ 32 - 1) < 1 :=
  C6_exact_quotient (fun _ => 5) 5 rfl (by norm_num)

/-- C7: the length constant equals 20 and the alphabet constant is exactly
the 62 alphanumeric characters in the fixed order A-Z, a-z, 0-9. -/
theorem C7_fixed_constants :
    kAutoIdLength = 20 ∧
      kAutoIdAlphabet =
        "ABCDEFGHIJKLMNOPQRSTUVWXYZabcdefghijklmnopqrstuvwxyz0123456789" ∧
      kAutoIdAlphabet.length = 62 := by
  refine ⟨rfl, rfl, ?_⟩
  decide

/-- C8: CreateAutoId is a deterministic function of the drawn index
sequence: two entropy streams inducing the same indices on the 20 loop
iterations yield the same output string. -/
theorem C8_deterministic (e f : Entropy)
    (h : ∀ i, i < kAutoIdLength → autoIdIndex e i = autoIdIndex f i) :
    CreateAutoId e = CreateAutoId f := by
  unfold CreateAutoId
  exact congrArg String.mk
    (autoIdChars_congr e f kAutoIdLength 0 (fun j _ hj2 => h j (by omega)))

/-- Witness for C8: the streams drawing constantly 0 and constantly 8
induce the same indices (both 0 mod 8) and hence the same output. -/
theorem C8_deterministic_witness :
    CreateAutoId (fun _ => 0) = CreateAutoId (fun _ => 8) :=
  C8_deterministic (fun _ => 0) (fun _ => 8) (fun i _ => by
    unfold autoIdIndex arc4random_uniform sizeofKAutoIdAlphabet
    norm_num)

/-- C9: both functions are total: for every entropy stream RandomDouble
returns a rational value and CreateAutoId returns a string of exactly
kAutoIdLength = 20 characters, one per bounded loop iteration, with no
error outcome. -/
theorem C9_total (e : Entropy) :
    (∃ q : ℚ, RandomDouble e = q) ∧
      (∃ s : String, CreateAutoId e = s ∧ s.data.length = kAutoIdLength) := by
  refine ⟨⟨RandomDouble e, rfl⟩, ⟨CreateAutoId e, rfl, ?_⟩⟩
  exact autoIdChars_length e kAutoIdLength 0

/-- C10: every index used to read the alphabet bytes is strictly below 62,
hence in bounds for the 62-character alphabet stored in a 63-byte buffer,
and the byte read is never the terminating NUL. -/
theorem C10_in_bounds (e : Entropy) (i : Nat) :
    autoIdIndex e i < 62 ∧ autoIdIndex e i < kAutoIdAlphabet.length ∧
      kAutoIdAlphabetBuf.length = 63 ∧
      kAutoIdAlphabetBuf.getD (autoIdIndex e i) (Char.ofNat 0) ≠
        Char.ofNat 0 := by
  have h8 := autoIdIndex_lt_eight e i
  have h62 : kAutoIdAlphabet.length = 62 := by decide
  refine ⟨by omega, by omega, by decide, ?_⟩
  have hmem := getD_buf_mem_first_eight _ h8
  intro hz
  rw [hz] at hmem
  exact absurd hmem (by decide)

end firestore
